import Mathlib

/-
Shallow embedding of `src/com.name.winui-as-ttk/tclinter/__init__.py`.

Conventions used throughout:
* Python exceptions are modelled by the inductive `PyErr`; fallible code
  returns `Except PyErr _` (or carries an `Option PyErr` alongside its
  effects).
* Native-interpreter side effects (`tk.deletecommand`, `tk.call("destroy", x)`)
  are modelled as a trace, a `List Instr`.
* Python private-name mangling is abstracted away: occurrences of the same
  double-underscore attribute that the mixin design treats as one conceptual
  field (e.g. `__tk` read in `HasTcl` and initialised in `BareWidget`) are one
  model field.  Textual mismatches between two *different* identifiers are
  kept, since they hold at every mangling convention (e.g. the `flags` setter
  guard reads `self.__flags` while the backing attribute is `__tcl_flags`).
* Values held by reactive variables and bounds are embedded as `Int`
  (Python `int`); `isinstance(val, type(...))` checks between two ints pass.
-/

namespace Tclinter

/-- Kinds of Python exception raised by the embedded code paths.
`instantiatedError` stands for the `InstantiatedError` subclass of
`RuntimeError` (lines 16-19); `runtimeError` is a bare `RuntimeError`. -/
inductive PyErr where
  | attributeError
  | nameError
  | typeError
  | valueError
  | runtimeError
  | instantiatedError
  | zeroDivisionError
deriving DecidableEq, Repr

/-- One native-interpreter operation issued through the handle. -/
inductive Instr where
  /-- `self.tk.deletecommand(command)` (line 54). -/
  | deleteCommand (name : String)
  /-- `self.do(TCL.DESTROY.value, self.tcl_varname)` (line 163);
  the argument is the issuing object's `tcl_varname`, which for a root
  session is never assigned and therefore stays `none`. -/
  | destroy (varname : Option String)
deriving DecidableEq, Repr

/-- Native interpreter handle (opaque). -/
abbrev Handle := Nat

/-- `HasTcl.tk` setter, lines 27-31: raise `InstantiatedError` when the
backing field is already set, otherwise store the value. -/
def tkSet (cur : Option Handle) (val : Handle) : Except PyErr (Option Handle) :=
  match cur with
  | some _ => .error .instantiatedError
  | none => .ok (some val)

/-- `HasTcl.tcl_varname` setter, lines 36-40. -/
def tclVarnameSet (cur : Option String) (val : String) :
    Except PyErr (Option String) :=
  match cur with
  | some _ => .error .instantiatedError
  | none => .ok (some val)

/-- Entries of the `commands` dict: generated name to callable id, or alias
to generated name. -/
abbrev CommandsDict := List (String × String)

/-- Entries of the `flags` dict: configuration key to its token tuple. -/
abbrev FlagsDict := List (String × List String)

/-- `HasTclCommands.commands` setter, lines 90-94: guard reads the backing
field `__tcl_commands`, which class-level defaults initialise to `None`. -/
def commandsSet (cur : Option CommandsDict) (val : CommandsDict) :
    Except PyErr (Option CommandsDict) :=
  match cur with
  | some _ => .error .instantiatedError
  | none => .ok (some val)

/-- `HasTclCommands.flags` setter, lines 122-126.  The guard is
`if self.__flags is not None`, but the backing attribute of the property is
`__tcl_flags` (line 85): no class in the file defines an attribute named
`__flags`, so the attribute read itself raises `AttributeError` on every
assignment, first or later, before any comparison or store happens. -/
def flagsSet (_cur : Option FlagsDict) (_val : FlagsDict) :
    Except PyErr (Option FlagsDict) :=
  .error .attributeError

/-- `HasChildren.children` setter, lines 186-190 (children modelled by ids). -/
def childrenSet (cur : Option (List Nat)) (val : List Nat) :
    Except PyErr (Option (List Nat)) :=
  match cur with
  | some _ => .error .instantiatedError
  | none => .ok (some val)

/-- `HasParent.parent` setter, lines 326-330 (parent modelled by id). -/
def parentSet (cur : Option Nat) (val : Nat) : Except PyErr (Option Nat) :=
  match cur with
  | some _ => .error .instantiatedError
  | none => .ok (some val)

/-- Body of the `HasTclCommands.__init__` classification loop,
lines 142-156.  The loop header binds `vaue`, but the body's first
expression is `callable(value)`: the name `value` is never assigned in
scope, so the first iteration raises `NameError`.  An empty keyword set
skips the loop. -/
def classifyLoop (kw : List (String × String)) : Except PyErr Unit :=
  match kw with
  | [] => .ok ()
  | _ :: _ => .error .nameError

/-- `HasTclCommands.__init__`, lines 138-156: assign `commands` (line 139),
assign `flags` (line 140, which raises `AttributeError`, see `flagsSet`),
then run the classification loop (unreachable). -/
def hasTclCommandsInit (kw : List (String × String)) :
    Except PyErr (CommandsDict × FlagsDict) := do
  let c ← commandsSet none []
  let f ← flagsSet none []
  let _ ← classifyLoop kw
  .ok (c.getD [], f.getD [])

/-- `HasTclCommands.__del__`, lines 158-163: pop every key of the `commands`
dict in order and issue one `deletecommand` per key, then issue the single
`destroy` instruction against the object's own `tcl_varname`. -/
def hasTclCommandsDelTrace (commands : List String) (varname : Option String) :
    List Instr :=
  commands.map Instr.deleteCommand ++ [Instr.destroy varname]

/-- One widget as the destructor sees it: its registered command names (dict
keys in insertion order), its `tcl_varname`, its identity in the per-class
instance set, and its child set. -/
structure Widget where
  commands : List String
  tcl_varname : Option String
  instKey : String
  children : List Widget

/-- `HasParent.__del__`, lines 341-342: `self.parent.remove(self)`.  No class
in the file (`__Root`, `BareWidget`, or any mixin) defines a method named
`remove` — the child set lives at `parent.children` — so the attribute lookup
raises `AttributeError`. -/
def hasParentDel : Except PyErr Unit :=
  .error .attributeError

/-- Trace a finalized widget emits: `BareWidget.__del__` (lines 397-403) runs
`HasTclCommands.__del__` first (command deletes plus the widget's own
destroy), then `delinstance`, then `HasParent.__del__`, which raises (see
`hasParentDel`) and aborts the method before `HasChildren.__del__` runs, so
no child teardown instruction is ever emitted. -/
def bareWidgetDelTrace (w : Widget) : List Instr :=
  hasTclCommandsDelTrace w.commands w.tcl_varname

/-- `HasChildren.__del__`, lines 192-196: drop each child from the set and
finalize it (`del child`); an exception inside a child's finalizer is
swallowed by the runtime at the `del` site, so each child contributes its
own (truncated) trace. -/
def hasChildrenDelTrace (children : List Widget) : List Instr :=
  (children.map bareWidgetDelTrace).flatten

/-- `BareWidget.__del__`, lines 397-403, with its full effect: the native
trace, the class's instance set after `delinstance` (line 400), and the
exception that escapes the method.  `HasParent.__del__` (line 402) raises
`AttributeError`, so `HasChildren.__del__` (line 403) never runs. -/
def bareWidgetDel (tracker : List String) (w : Widget) :
    List Instr × List String × Option PyErr :=
  let tr := hasTclCommandsDelTrace w.commands w.tcl_varname
  let tracker' := tracker.erase w.instKey
  match hasParentDel with
  | .error e => (tr, tracker', some e)
  | .ok _ => (tr ++ hasChildrenDelTrace w.children, tracker', none)

/-- A root session as its destructor sees it. -/
structure RootState where
  commands : List String
  tcl_varname : Option String
  children : List Widget

/-- `__Root.__del__`, lines 281-285: `HasTclCommands.__del__` (command
deletes, then the session's destroy instruction), then `HasChildren.__del__`
(child finalizers), then `delroot` (pool removal, no native instruction). -/
def rootDelTrace (s : RootState) : List Instr :=
  hasTclCommandsDelTrace s.commands s.tcl_varname ++ hasChildrenDelTrace s.children

/-- Recogniser for delete-command instructions. -/
def isDeleteCmd : Instr → Bool
  | .deleteCommand _ => true
  | .destroy _ => false

/-- Recogniser for a destroy instruction against a given variable name. -/
def isDestroyOf (vn : Option String) : Instr → Bool
  | .deleteCommand _ => false
  | .destroy v => v = vn

/-- Child used by the C1 failing input: `.!barewidget.!window.`. -/
def c1Child : Widget :=
  ⟨[], some ".!barewidget.!window.", "window@0", []⟩

/-- C1 failing input: a widget with no commands, one child, and its class's
instance set holding exactly this widget. -/
def c1Widget : Widget :=
  ⟨[], some ".!barewidget.", "barewidget@0", [c1Child]⟩

/-- Claim C1, evaluated at the failing input (a `BareWidget` with a non-empty
child set): the destructor issues the widget's OWN destroy instruction as its
only native operation, removes the widget from the instance set, and then
raises `AttributeError` from `HasParent.__del__`, so the child's destroy
instruction is never issued — the opposite of the claimed post-order
(children first, tracker/parent removal before the registry teardown). -/
theorem bare_widget_del_self_first_then_crashes :
    bareWidgetDel ["barewidget@0"] c1Widget =
      ([Instr.destroy (some ".!barewidget.")], [], some PyErr.attributeError)
    ∧ Instr.destroy (some ".!barewidget.!window.") ∉
        (bareWidgetDel ["barewidget@0"] c1Widget).1 := by
  exact ⟨rfl, by decide⟩

/-- Claim C2: destroying a root session holding K live registered commands
emits exactly K delete-command operations (one per `commands` key, in order)
followed by exactly one destroy instruction against the session's own
`tcl_varname`, before anything else (child teardown) happens. -/
theorem root_del_deletes_then_destroy :
    ∀ (cmds : List String) (vn : Option String) (children : List Widget),
      rootDelTrace ⟨cmds, vn, children⟩ =
        cmds.map Instr.deleteCommand ++ [Instr.destroy vn]
          ++ hasChildrenDelTrace children
      ∧ rootDelTrace ⟨cmds, vn, []⟩ =
          cmds.map Instr.deleteCommand ++ [Instr.destroy vn]
      ∧ (rootDelTrace ⟨cmds, vn, []⟩).countP isDeleteCmd = cmds.length
      ∧ (rootDelTrace ⟨cmds, vn, []⟩).countP (isDestroyOf vn) = 1 := by
  intro cmds vn children
  refine ⟨?_, ?_, ?_, ?_⟩
  · simp [rootDelTrace, hasTclCommandsDelTrace, List.append_assoc]
  · simp [rootDelTrace, hasTclCommandsDelTrace, hasChildrenDelTrace]
  · simp [rootDelTrace, hasTclCommandsDelTrace, hasChildrenDelTrace,
      List.countP_append, List.countP_map, isDeleteCmd, List.countP_eq_length]
  · simp [rootDelTrace, hasTclCommandsDelTrace, hasChildrenDelTrace,
      List.countP_append, List.countP_map, isDestroyOf, List.countP_eq_zero]

/-- Claim C6, evaluated on the code: each write-once setter (`tk`,
`tcl_varname`, `commands`, `children`, `parent`) raises the re-instantiation
error on a second assignment, leaving the stored value untouched (the guard
raises before any store) — but the `flags` setter raises `AttributeError` on
EVERY assignment, because its guard reads the undefined attribute `__flags`
instead of the backing `__tcl_flags`, so the flags field never follows the
claimed contract. -/
theorem write_once_setters :
    (∀ (h : Handle) (v : Handle),
      tkSet (some h) v = .error .instantiatedError)
    ∧ (∀ (s v : String),
      tclVarnameSet (some s) v = .error .instantiatedError)
    ∧ (∀ (c v : CommandsDict),
      commandsSet (some c) v = .error .instantiatedError)
    ∧ (∀ (c v : List Nat),
      childrenSet (some c) v = .error .instantiatedError)
    ∧ (∀ (p v : Nat),
      parentSet (some p) v = .error .instantiatedError)
    ∧ (∀ (cur : Option FlagsDict) (v : FlagsDict),
      flagsSet cur v = .error .attributeError)
    ∧ PyErr.attributeError ≠ PyErr.instantiatedError := by
  exact ⟨fun _ _ => rfl, fun _ _ => rfl, fun _ _ => rfl, fun _ _ => rfl,
    fun _ _ => rfl, fun _ _ => rfl, by decide⟩

/-- Claim C7, evaluated on the code: `HasTclCommands.__init__` never
classifies any configuration value — it raises `AttributeError` at
`self.flags = dict()` for every keyword set (see `flagsSet`), and even the
classification loop itself, were it reached, raises `NameError` on any
non-empty keyword set because the loop binds `vaue` but the body reads
`value`. -/
theorem has_tcl_commands_init_crashes :
    (∀ (kw : List (String × String)),
      hasTclCommandsInit kw = .error .attributeError)
    ∧ (∀ (k v : String) (rest : List (String × String)),
      classifyLoop ((k, v) :: rest) = .error .nameError) := by
  exact ⟨fun _ => rfl, fun _ _ _ => rfl⟩

/-- An observer as stored in the `Observers` dict (lines 406-434): a
callable closing over the object it watches.  A broadcast invokes it with no
Python arguments; the `Int` input models the closure's read of the observed
variable's current value, and the result either returns normally or raises. -/
abbrev Observer := Int → Except PyErr Int

/-- `Observers.__call__()` with no arguments, lines 422-426: walk the dict in
insertion order invoking each observer with no arguments; a raise propagates
immediately, so observers after the raising one are never invoked.  Returns
the names invoked, in order, and the escaping exception if any. -/
def broadcast (obs : List (String × Observer)) (v : Int) :
    List String × Option PyErr :=
  match obs with
  | [] => ([], none)
  | (name, f) :: rest =>
    match f v with
    | .error e => ([name], some e)
    | .ok _ =>
      let r := broadcast rest v
      (name :: r.1, r.2)

/-- A `Variable` (lines 454-474): the current value and the `Observers`
dict in insertion order. -/
structure VarState where
  value : Int
  observers : List (String × Observer)

/-- The `Variable.value` setter, lines 461-465: store the value first, then
call `self.observers()`; the new state, the names invoked, and the escaping
exception.  The store is unconditional — a raising observer leaves the
variable already mutated. -/
def valueSet (s : VarState) (v : Int) :
    VarState × List String × Option PyErr :=
  let s' : VarState := { s with value := v }
  let b := broadcast s'.observers s'.value
  (s', b.1, b.2)

/-- `Variable.__init__`, lines 467-474: fresh empty `Observers` dict
(`HasObserver.__init__`), then if `value` is absent require a callable
default and call it, then perform the initial assignment through the same
`value` setter (hence the same broadcast path). -/
def variableInit (default : Option (Unit → Int)) (value : Option Int) :
    Except PyErr (VarState × List String × Option PyErr) :=
  match value with
  | some v => .ok (valueSet ⟨0, []⟩ v)
  | none =>
    match default with
    | some f => .ok (valueSet ⟨0, []⟩ (f ()))
    | none => .error .valueError

/-- A `Bounds` constraint's own fields (lines 477-521). -/
structure BoundsState where
  minimum : Option Int
  maximum : Option Int

/-- `Bounds.enforce`, lines 508-509:
`if not (self.minimum <= self.enforces.value <= self.maximum)` with Python
chained-comparison short-circuiting: comparing against an unset (`None`)
bound raises `TypeError`; a failed first comparison raises `RuntimeError`
without ever reading `maximum`. -/
def boundsEnforce (b : BoundsState) (v : Int) : Except PyErr Int :=
  match b.minimum with
  | none => .error .typeError
  | some lo =>
    if lo ≤ v then
      match b.maximum with
      | none => .error .typeError
      | some hi => if v ≤ hi then .ok 0 else .error .runtimeError
    else .error .runtimeError

/-- The observer `Bounds.__init__` registers (line 515):
`self.enforces.observers[id(self)] = self.enforce`. -/
def boundsObserver (b : BoundsState) : Observer :=
  fun v => boundsEnforce b v

/-- The `Bounds.minimum` setter, lines 492-498: the `isinstance` check
against the observed value's type passes in this `Int`-valued embedding;
raise `ValueError` when the new minimum exceeds an already-set maximum. -/
def boundsMinSet (b : BoundsState) (val : Int) : Except PyErr BoundsState :=
  match b.maximum with
  | some mx =>
    if mx < val then .error .valueError else .ok { b with minimum := some val }
  | none => .ok { b with minimum := some val }

/-- The `Bounds.maximum` setter, lines 500-506: raise `ValueError` when the
new maximum is below an already-set minimum. -/
def boundsMaxSet (b : BoundsState) (val : Int) : Except PyErr BoundsState :=
  match b.minimum with
  | some mn =>
    if val < mn then .error .valueError else .ok { b with maximum := some val }
  | none => .ok { b with maximum := some val }

/-- `Bounds.__init__`, lines 511-521: starting from unset bounds (class
defaults `None`), assign `minimum` then `maximum` through their setters when
supplied.  (Line 515 also registers `boundsObserver` on the variable; the
variable's current value only feeds the vacuous `isinstance` checks.) -/
def boundsInit (_varValue : Int) (mn mx : Option Int) :
    Except PyErr BoundsState := do
  let b0 : BoundsState := ⟨none, none⟩
  let b1 ←
    match mn with
    | some m => boundsMinSet b0 m
    | none => pure b0
  match mx with
  | some m => boundsMaxSet b1 m
  | none => pure b1

/-- Broadcast over observers that all return normally on `v` invokes each
exactly once, in dict order, with no escaping exception. -/
theorem broadcast_all_ok (obs : List (String × Observer)) (v : Int)
    (h : ∀ p ∈ obs, ∃ r, p.2 v = .ok r) :
    broadcast obs v = (obs.map Prod.fst, none) := by
  induction obs with
  | nil => rfl
  | cons hd tl ih =>
    obtain ⟨r, hr⟩ := h hd (List.mem_cons_self hd tl)
    have htl := ih fun p hp => h p (List.mem_cons_of_mem hd hp)
    simp [broadcast, hr, htl]

/-- An observer that raises `RuntimeError` whatever it reads (as
`Bounds.enforce` does on a violated interval). -/
def obsRaise : Observer := fun _ => .error .runtimeError

/-- An observer that always returns normally. -/
def obsNoop : Observer := fun _ => .ok 0

/-- Claim C4 is false as stated: with observers `"a"` (raising) and `"b"`
(well-behaved) registered in that order, writing `5` invokes only `"a"`
— observer `"b"` is invoked zero times, not exactly once — and the raise
escapes the assignment. -/
theorem broadcast_not_exactly_once :
    (valueSet ⟨0, [("a", obsRaise), ("b", obsNoop)]⟩ 5).2 =
      (["a"], some PyErr.runtimeError)
    ∧ "b" ∉ (valueSet ⟨0, [("a", obsRaise), ("b", obsNoop)]⟩ 5).2.1 := by
  exact ⟨rfl, by decide⟩

/-- Claim C4 as amended: every write stores the value and then broadcasts in
dict order with no way to suppress it; when every observer returns normally
each of the N observers is invoked exactly once, with no arguments, before
the assignment returns (a raising observer instead aborts the broadcast and
the exception propagates).  The constructor's initial assignment goes
through the same setter, broadcasting to the then-empty observer set. -/
theorem value_set_broadcast :
    (∀ (s : VarState) (v : Int),
      (∀ p ∈ s.observers, ∃ r, p.2 v = .ok r) →
        valueSet s v = ({ s with value := v }, s.observers.map Prod.fst, none))
    ∧ (∀ (v0 : Int), variableInit none (some v0) = .ok (⟨v0, []⟩, [], none)) := by
  refine ⟨fun s v h => ?_, fun v0 => rfl⟩
  simp [valueSet, broadcast_all_ok s.observers v h]

/-- Witness for the amended C4 at a concrete input. -/
theorem value_set_broadcast_witness :
    valueSet ⟨0, [("n", obsNoop)]⟩ 5 = (⟨5, [("n", obsNoop)]⟩, ["n"], none) :=
  value_set_broadcast.1 ⟨0, [("n", obsNoop)]⟩ 5 (by
    intro p hp
    simp only [List.mem_singleton] at hp
    subst hp
    exact ⟨0, rfl⟩)

/-- Claim C5: for a variable observed by a `Bounds` constraint with interval
`[lo, hi]`, an in-range write returns normally (the observer is invoked and
returns), and an out-of-range write raises `RuntimeError` while the variable
remains mutated to the rejected value. -/
theorem bounds_write_contract :
    ∀ (lo hi v0 v : Int) (nm : String),
      ((lo ≤ v ∧ v ≤ hi) →
        valueSet ⟨v0, [(nm, boundsObserver ⟨some lo, some hi⟩)]⟩ v =
          (⟨v, [(nm, boundsObserver ⟨some lo, some hi⟩)]⟩, [nm], none))
      ∧ ((v < lo ∨ hi < v) →
        (valueSet ⟨v0, [(nm, boundsObserver ⟨some lo, some hi⟩)]⟩ v).2.2 =
          some PyErr.runtimeError
        ∧ (valueSet ⟨v0, [(nm, boundsObserver ⟨some lo, some hi⟩)]⟩ v).1.value
            = v) := by
  intro lo hi v0 v nm
  constructor
  · rintro ⟨h1, h2⟩
    simp [valueSet, broadcast, boundsObserver, boundsEnforce, h1, h2]
  · intro h
    have henf : boundsEnforce ⟨some lo, some hi⟩ v = .error .runtimeError := by
      simp only [boundsEnforce]
      split_ifs with h1 h2
      · exfalso
        rcases h with h' | h' <;> omega
      · rfl
      · rfl
    exact ⟨by simp [valueSet, broadcast, boundsObserver, henf], rfl⟩

/-- Witness for C5 at the spec's own end-to-end scenario: interval `[0, 10]`,
initial value `5`; writing `7` succeeds, writing `15` raises `RuntimeError`
yet leaves the value at `15`. -/
theorem bounds_write_contract_witness :
    valueSet ⟨5, [("b", boundsObserver ⟨some 0, some 10⟩)]⟩ 7 =
      (⟨7, [("b", boundsObserver ⟨some 0, some 10⟩)]⟩, ["b"], none)
    ∧ (valueSet ⟨5, [("b", boundsObserver ⟨some 0, some 10⟩)]⟩ 15).2.2 =
        some PyErr.runtimeError
    ∧ (valueSet ⟨5, [("b", boundsObserver ⟨some 0, some 10⟩)]⟩ 15).1.value
        = 15 :=
  ⟨(bounds_write_contract 0 10 5 7 "b").1 (by decide),
    ((bounds_write_contract 0 10 5 15 "b").2 (Or.inr (by decide))).1,
    ((bounds_write_contract 0 10 5 15 "b").2 (Or.inr (by decide))).2⟩

/-- Claim C9: constructing a `Bounds` with `lo > hi` always raises — the
`minimum` assignment succeeds against the still-unset maximum, and the
subsequent `maximum` assignment sees `val < self.minimum` and raises
`ValueError` — whatever the observed variable's current value is. -/
theorem bounds_init_inverted_interval :
    ∀ (v lo hi : Int), hi < lo →
      boundsInit v (some lo) (some hi) = .error .valueError := by
  intro v lo hi h
  simp [boundsInit, boundsMinSet, boundsMaxSet, Bind.bind, Except.bind, h]

/-- Witness for C9: interval `[3, 0]` on a variable currently holding `5`. -/
theorem bounds_init_inverted_interval_witness :
    boundsInit 5 (some 3) (some 0) = .error .valueError :=
  bounds_init_inverted_interval 5 3 0 (by decide)

/-- `Ratio` (lines 524-576): numerator, denominator, and the `reduced`
flag. -/
structure Ratio where
  numerator : Int
  denominator : Int
  reduced : Bool

/-- The `Ratio.numerator` setter, lines 539-544: a write of a different
value clears the `reduced` flag. -/
def numeratorSet (r : Ratio) (val : Int) : Ratio :=
  { r with
    numerator := val
    reduced := if val ≠ r.numerator then false else r.reduced }

/-- The `Ratio.denominator` setter, lines 546-551. -/
def denominatorSet (r : Ratio) (val : Int) : Ratio :=
  { r with
    denominator := val
    reduced := if val ≠ r.denominator then false else r.reduced }

/-- `Ratio.__init__`, lines 567-576: missing components default to `1`; both
setter writes replace a previously-`None` class attribute, so `val != old`
holds and each write clears `reduced`, leaving it `false`. -/
def ratioInit (numerator denominator : Option Int) : Ratio :=
  { numerator := numerator.getD 1
    denominator := denominator.getD 1
    reduced := false }

/-- `Ratio.reduce`, lines 553-558: `cd = gcd(numerator, denominator)` and
both components are floor-divided (`//=`) by `cd` through the setters; when
both components are `0`, `gcd(0, 0) = 0` and the division raises
`ZeroDivisionError`; on success the flag is set last. -/
def ratioReduce (r : Ratio) : Except PyErr Ratio :=
  let cd : Int := Int.gcd r.numerator r.denominator
  if cd = 0 then .error .zeroDivisionError
  else
    let r1 := numeratorSet r (r.numerator.fdiv cd)
    let r2 := denominatorSet r1 (r1.denominator.fdiv cd)
    .ok { r2 with reduced := true }

/-- The `Ratio.ratio` property, lines 560-565: lazily reduce when the flag
is clear, then return both components. -/
def ratioGet (r : Ratio) : Except PyErr (Int × Int) :=
  if r.reduced then .ok (r.numerator, r.denominator)
  else do
    let r' ← ratioReduce r
    .ok (r'.numerator, r'.denominator)

/-- Claim C10: reading `ratio` on a `Ratio(0, 0)` raises
`ZeroDivisionError` (gcd(0,0) = 0 is used as the divisor), and whenever
`gcd(numerator, denominator) ≠ 0` the property returns both components
divided exactly by their greatest common divisor. -/
theorem ratio_reduce_contract :
    ratioGet (ratioInit (some 0) (some 0)) = .error .zeroDivisionError
    ∧ ∀ (n d : Int), Int.gcd n d ≠ 0 →
        ratioGet (ratioInit (some n) (some d)) =
          .ok (n.fdiv (Int.gcd n d), d.fdiv (Int.gcd n d))
        ∧ n.fdiv (Int.gcd n d) * Int.gcd n d = n
        ∧ d.fdiv (Int.gcd n d) * Int.gcd n d = d := by
  refine ⟨rfl, fun n d h => ?_⟩
  have hg : ((Int.gcd n d : Nat) : Int) ≠ 0 := by exact_mod_cast h
  refine ⟨?_, ?_, ?_⟩
  · simp [ratioGet, ratioInit, ratioReduce, numeratorSet, denominatorSet,
      Bind.bind, Except.bind, hg]
  · rw [Int.fdiv_eq_ediv_of_dvd (Int.gcd_dvd_left),
      Int.ediv_mul_cancel (Int.gcd_dvd_left)]
  · rw [Int.fdiv_eq_ediv_of_dvd (Int.gcd_dvd_right),
      Int.ediv_mul_cancel (Int.gcd_dvd_right)]

/-- Witness for C10 at `Ratio(4, 6)`: `gcd = 2`, the property returns the
exactly-divided pair. -/
theorem ratio_reduce_contract_witness :
    ratioGet (ratioInit (some 4) (some 6)) =
      .ok ((4 : Int).fdiv (Int.gcd 4 6), (6 : Int).fdiv (Int.gcd 4 6)) :=
  (ratio_reduce_contract.2 4 6 (by decide)).1

/-- Python values flowing through callback groups; `F` names the underlying
plain callables, interpreted by an environment `F → arguments → result`. -/
inductive PyVal (F : Type) where
  | none
  | int (n : Int)
  | str (s : String)
  | tuple (xs : List (PyVal F))
  | list (xs : List (PyVal F))
  | func (f : F)

/-- Python `f(*x)` argument star-unpacking: tuples, lists and strings
(character by character) unpack; `None`, numbers and callables raise
`TypeError` (argument after * must be an iterable). -/
def starUnpack {F : Type} : PyVal F → Except PyErr (List (PyVal F))
  | .tuple xs => .ok xs
  | .list xs => .ok xs
  | .str s => .ok (s.data.map fun c => PyVal.str (String.singleton c))
  | _ => .error .typeError

/-- `Callable.__init__`, lines 63-64: keep the callable arguments, in
order. -/
def callableFunctions {F : Type} (args : List (PyVal F)) : List F :=
  args.filterMap fun v =>
    match v with
    | .func f => some f
    | _ => none

/-- The loop of `Callable.__call__`, lines 66-70: walk the (already
reversed) function list threading the local `args`, which starts as the
call's argument tuple and afterwards is whatever the previous callable
returned; `None` means call with no arguments, anything else is
star-unpacked (raising `TypeError` when it is not unpackable).  Also
records the invocation trace: each callable with the argument list it
received. -/
def callableChain {F : Type} (app : F → List (PyVal F) → PyVal F) :
    List F → PyVal F → List (F × List (PyVal F)) →
      List (F × List (PyVal F)) × Except PyErr (PyVal F)
  | [], cur, tr => (tr, .ok cur)
  | f :: rest, cur, tr =>
    match cur with
    | .none => callableChain app rest (app f []) (tr ++ [(f, [])])
    | v =>
      match starUnpack v with
      | .error e => (tr, .error e)
      | .ok xs => callableChain app rest (app f xs) (tr ++ [(f, xs)])

/-- `Callable.__call__`, lines 66-70: iterate `reversed(self.functions)`
starting from the call's argument tuple and return the final `args`. -/
def callableCall {F : Type} (app : F → List (PyVal F) → PyVal F)
    (fs : List F) (args : List (PyVal F)) :
    List (F × List (PyVal F)) × Except PyErr (PyVal F) :=
  callableChain app fs.reverse (.tuple args) []

/-- Interpretation used by the C8 counterexample: callable `0` (the `g` of
the claim) returns the plain integer `2`; callable `1` (the `f`) returns
`99`. -/
def appC8 : Nat → List (PyVal Nat) → PyVal Nat :=
  fun f _args => if f = 0 then .int 2 else .int 99

/-- Claim C8 is false as stated: for the group `[f, g]` where `g` returns
the non-iterable `2`, invoking the group with `(1,)` does invoke `g(1)`
first, but then star-unpacking `g`'s result raises `TypeError` — the
invocation does not return `f`'s result, and `f` is never invoked. -/
theorem callable_chain_counterexample :
    (callableCall appC8 [1, 0] [PyVal.int 1]).2 = .error .typeError
    ∧ (callableCall appC8 [1, 0] [PyVal.int 1]).1 = [(0, [PyVal.int 1])]
    ∧ (callableCall appC8 [1, 0] [PyVal.int 1]).2 ≠
        .ok (appC8 1 [appC8 0 [PyVal.int 1]]) := by
  refine ⟨rfl, rfl, fun h => ?_⟩
  have h' : (Except.error PyErr.typeError :
      Except PyErr (PyVal Nat)) = .ok (appC8 1 [appC8 0 [PyVal.int 1]]) := h
  exact Except.noConfusion h'

/-- Claim C8 as amended: for a group of two callables `[f, g]` whose `g`
returns an argument tuple on the given arguments, invoking the group first
invokes `g` on the call's arguments, then invokes `f` on the unpacked
components of `g`'s result, and returns `f`'s result (last-registered-first
reverse chaining); when `g`'s result is not unpackable the invocation
raises `TypeError` instead. -/
theorem callable_chain_reverse_compose :
    ∀ {F : Type} (app : F → List (PyVal F) → PyVal F) (fI gI : F)
      (args ys : List (PyVal F)),
      app gI args = PyVal.tuple ys →
        callableCall app [fI, gI] args =
          ([(gI, args), (fI, ys)], .ok (app fI ys)) := by
  intro F app fI gI args ys h
  show callableChain app [gI, fI] (PyVal.tuple args) [] = _
  have step1 : callableChain app [gI, fI] (PyVal.tuple args) [] =
      callableChain app [fI] (app gI args) [(gI, args)] := rfl
  rw [step1, h]
  have step2 : callableChain app [fI] (PyVal.tuple ys) [(gI, args)] =
      callableChain app [] (app fI ys) [(gI, args), (fI, ys)] := rfl
  rw [step2]
  rfl

/-- Interpretation used by the C8 witness: callable `0` returns the tuple
`(2,)`; callable `1` returns `7`. -/
def appW : Nat → List (PyVal Nat) → PyVal Nat :=
  fun f _args => if f = 0 then .tuple [.int 2] else .int 7

/-- Witness for the amended C8: `g` returns `(2,)`, so `f` receives `2` and
the group returns `f`'s result. -/
theorem callable_chain_reverse_compose_witness :
    callableCall appW [1, 0] [PyVal.int 1] =
      ([(0, [PyVal.int 1]), (1, [PyVal.int 2])], .ok (appW 1 [PyVal.int 2])) :=
  callable_chain_reverse_compose appW 1 0 [PyVal.int 1] [PyVal.int 2] rfl

/-- Fuel-driven decimal digit expansion (most significant first); with
`fuel ≥ n` this is the digit list of `n`. -/
def natDigitsAux : Nat → Nat → List Nat
  | 0, n => [n % 10]
  | fuel + 1, n => if n < 10 then [n] else natDigitsAux fuel (n / 10) ++ [n % 10]

/-- Decimal digits of `n`, most significant first. -/
def natDigits (n : Nat) : List Nat :=
  natDigitsAux n n

/-- A decimal digit as a character. -/
def digitToChar (d : Nat) : Char :=
  match d with
  | 0 => '0'
  | 1 => '1'
  | 2 => '2'
  | 3 => '3'
  | 4 => '4'
  | 5 => '5'
  | 6 => '6'
  | 7 => '7'
  | 8 => '8'
  | _ => '9'

/-- A decimal digit character back to its value. -/
def charToDigit (c : Char) : Nat :=
  match c with
  | '0' => 0
  | '1' => 1
  | '2' => 2
  | '3' => 3
  | '4' => 4
  | '5' => 5
  | '6' => 6
  | '7' => 7
  | '8' => 8
  | _ => 9

/-- Python `str(index)` for a natural index: its decimal rendering. -/
def natToString (n : Nat) : String :=
  String.mk ((natDigits n).map digitToChar)

/-- The number a digit list denotes. -/
def digitsVal (ds : List Nat) : Nat :=
  ds.foldl (fun a d => 10 * a + d) 0

theorem digitsVal_append (ds : List Nat) (d : Nat) :
    digitsVal (ds ++ [d]) = 10 * digitsVal ds + d := by
  simp [digitsVal, List.foldl_append]

theorem digitsVal_natDigitsAux :
    ∀ (fuel n : Nat), n ≤ fuel → digitsVal (natDigitsAux fuel n) = n := by
  intro fuel
  induction fuel with
  | zero =>
    intro n hn
    have h0 : n = 0 := Nat.le_zero.mp hn
    subst h0
    rfl
  | succ fuel ih =>
    intro n hn
    by_cases h10 : n < 10
    · simp [natDigitsAux, h10, digitsVal]
    · have hle : n / 10 ≤ fuel := by omega
      simp [natDigitsAux, h10, digitsVal_append, ih (n / 10) hle]
      omega

theorem digitsVal_natDigits (n : Nat) : digitsVal (natDigits n) = n :=
  digitsVal_natDigitsAux n n le_rfl

theorem natDigits_injective : Function.Injective natDigits := by
  intro a b h
  have h' := congrArg digitsVal h
  rwa [digitsVal_natDigits, digitsVal_natDigits] at h'

theorem natDigitsAux_mem_lt :
    ∀ (fuel n : Nat), n ≤ fuel → ∀ d ∈ natDigitsAux fuel n, d < 10 := by
  intro fuel
  induction fuel with
  | zero =>
    intro n _ d hd
    simp [natDigitsAux] at hd
    omega
  | succ fuel ih =>
    intro n hn d hd
    by_cases h10 : n < 10
    · simp [natDigitsAux, h10] at hd
      omega
    · have hle : n / 10 ≤ fuel := by omega
      simp [natDigitsAux, h10] at hd
      rcases hd with hd | hd
      · exact ih (n / 10) hle d hd
      · omega

theorem charToDigit_digitToChar (d : Nat) (hd : d < 10) :
    charToDigit (digitToChar d) = d := by
  interval_cases d <;> rfl

theorem natDigitsAux_ne_nil (fuel n : Nat) : natDigitsAux fuel n ≠ [] := by
  cases fuel with
  | zero => simp [natDigitsAux]
  | succ fuel =>
    simp only [natDigitsAux]
    split <;> simp

theorem natToString_length_pos (n : Nat) : 0 < (natToString n).length := by
  have h := natDigitsAux_ne_nil n n
  simp [natToString, String.length, natDigits]
  exact List.length_pos.mpr h

theorem natToString_injective : Function.Injective natToString := by
  intro a b h
  apply natDigits_injective
  have hdata : (natDigits a).map digitToChar = (natDigits b).map digitToChar := by
    have h' := congrArg String.data h
    simpa [natToString] using h'
  have h2 := congrArg (List.map charToDigit) hdata
  rw [List.map_map, List.map_map] at h2
  have ha : (natDigits a).map (charToDigit ∘ digitToChar) = natDigits a := by
    have : ∀ d ∈ natDigits a, (charToDigit ∘ digitToChar) d = id d := fun d hd =>
      charToDigit_digitToChar d (natDigitsAux_mem_lt a a le_rfl d hd)
    rw [List.map_congr_left this, List.map_id]
  have hb : (natDigits b).map (charToDigit ∘ digitToChar) = natDigits b := by
    have : ∀ d ∈ natDigits b, (charToDigit ∘ digitToChar) d = id d := fun d hd =>
      charToDigit_digitToChar d (natDigitsAux_mem_lt b b le_rfl d hd)
    rw [List.map_congr_left this, List.map_id]
  rw [ha, hb] at h2
  exact h2

/-- The default-name derivation of `BareWidget.__init__`, lines 364-369:
the lower-cased class name, suffixed with the per-class index unless the
index is `0`. -/
def nameFor (base : String) (index : Nat) : String :=
  if index = 0 then base else base ++ natToString index

theorem nameFor_injective (base : String) : Function.Injective (nameFor base) := by
  intro a b h
  unfold nameFor at h
  by_cases ha : a = 0 <;> by_cases hb : b = 0
  · omega
  · exfalso
    rw [if_pos ha, if_neg hb] at h
    have hlen := congrArg String.length h
    rw [String.length_append] at hlen
    have := natToString_length_pos b
    omega
  · exfalso
    rw [if_neg ha, if_pos hb] at h
    have hlen := congrArg String.length h
    rw [String.length_append] at hlen
    have := natToString_length_pos a
    omega
  · rw [if_neg ha, if_neg hb] at h
    have hdata := congrArg String.data h
    rw [String.data_append, String.data_append] at hdata
    have hcancel := List.append_cancel_left hdata
    exact natToString_injective (String.ext hcancel)

/-- The instance-count-based creation step: `BareWidget.__init__` derives
the default name from `len(cls.getinstances())` (line 366) and then
registers itself (`addinstance`, line 395).  The state is the class's live
instance set, by name, in insertion order. -/
def trackerCreate (base : String) (s : List String) : List String × String :=
  let index := s.length
  let name := nameFor base index
  (s ++ [name], name)

/-- `HasInstanceTracking.delinstance` (lines 175-177), as invoked from
`BareWidget.__del__` (line 400): the destroyed instance leaves the set. -/
def trackerDestroy (s : List String) (name : String) : List String :=
  s.erase name

/-- The live-instance set after `n` creations with no interleaved
destruction. -/
def createN (base : String) : Nat → List String
  | 0 => []
  | n + 1 => (trackerCreate base (createN base n)).1

theorem createN_eq (base : String) (n : Nat) :
    createN base n = (List.range n).map (nameFor base) := by
  induction n with
  | zero => rfl
  | succ n ih =>
    have hlen : (createN base n).length = n := by
      rw [ih]
      simp
    simp [createN, trackerCreate, ih, hlen, List.range_succ]

/-- Claim C3 is false as stated: with base name `barewidget`, the
interleaving create, create, destroy-the-first, create hands the index
suffix `1` out twice — the final live set holds two distinct widgets with
the same derived name `barewidget1`. -/
theorem naming_reuses_live_index :
    (trackerCreate "barewidget"
        (trackerDestroy
          (trackerCreate "barewidget"
            (trackerCreate "barewidget" []).1).1
          "barewidget")).1 = ["barewidget1", "barewidget1"]
    ∧ ¬ (trackerCreate "barewidget"
        (trackerDestroy
          (trackerCreate "barewidget"
            (trackerCreate "barewidget" []).1).1
          "barewidget")).1.Nodup := by
  exact ⟨by decide, by decide⟩

/-- Claim C3 as amended: the per-class index is the current live-instance
count, not a monotone counter, so derived names are collision-free exactly
when no instance of the class has been destroyed: any run of constructions
alone yields pairwise-distinct derived names. -/
theorem naming_unique_without_destruction :
    ∀ (base : String) (n : Nat), (createN base n).Nodup := by
  intro base n
  rw [createN_eq]
  exact List.Nodup.map (nameFor_injective base) (List.nodup_range n)

end Tclinter
